import Mathlib

/-!
Verification of the filtering-and-aggregation pipeline of the IPL Analytics
Dashboard (`app.py`).  The two data tables are embedded as lists of records;
each pandas operation used by the claims is translated into an executable
Lean function on those lists.  A missing value (pandas `NaN`) in a string
column is `Option.none`; `isin` on a missing value is `false`, matching
pandas semantics.
-/

/-- One row of `matches.csv` after loading (`app.py` data model).  Fields are
the columns the filtering and aggregation pipeline reads: `id`, `season`,
`team1`, `team2`, `venue`, `winner`.  String columns that can hold `NaN` are
`Option String`. -/
structure MatchRow where
  id : Nat
  season : Int
  team1 : Option String
  team2 : Option String
  venue : Option String
  winner : Option String
deriving DecidableEq, Repr

/-- One row of `deliveries.csv` (the columns the claims read): foreign key
`match_id`, zero-indexed `over` counter, `bowler`, `batsman`, run counts and
the dismissal columns (`NaN` when no wicket fell). -/
structure DeliveryRow where
  match_id : Nat
  inning : Nat
  over : Nat
  ball : Nat
  batsman : String
  bowler : String
  batsman_runs : Nat
  total_runs : Nat
  player_dismissed : Option String
  dismissal_kind : Option String
deriving DecidableEq, Repr

/-- pandas `Series.isin(sel)` on a possibly-missing string value: a missing
value (`NaN`) is never in a list of strings. -/
def optIsin (o : Option String) (sel : List String) : Bool :=
  match o with
  | some v => decide (v ∈ sel)
  | none => false

/-- `app.py` line 228-229: `if selected_season: filtered_matches =
filtered_matches[filtered_matches[season].isin(selected_season)]`.
An empty selection (falsy list) skips the filter. -/
def seasonStep (sel : List Int) (ms : List MatchRow) : List MatchRow :=
  if sel.isEmpty then ms else ms.filter (fun r => decide (r.season ∈ sel))

/-- `app.py` line 231-235: keep a match when `team1` or `team2` is in the
selected set; an empty selection skips the filter. -/
def teamStep (sel : List String) (ms : List MatchRow) : List MatchRow :=
  if sel.isEmpty then ms
  else ms.filter (fun r => optIsin r.team1 sel || optIsin r.team2 sel)

/-- `app.py` line 237-238: venue membership filter; an empty selection skips
the filter. -/
def venueStep (sel : List String) (ms : List MatchRow) : List MatchRow :=
  if sel.isEmpty then ms else ms.filter (fun r => optIsin r.venue sel)

/-- `app.py` lines 226-238: the three filters applied in order
season, team, venue (logical AND composition). -/
def filterMatches (s : List Int) (t v : List String) (ms : List MatchRow) :
    List MatchRow :=
  venueStep v (teamStep t (seasonStep s ms))

/-- `app.py` lines 240-242: `filtered_match_ids = filtered_matches[id].unique()` and
`filtered_deliveries = deliveries[deliveries[match_id]
.isin(filtered_match_ids)]`. -/
def filterDeliveries (fm : List MatchRow) (ds : List DeliveryRow) :
    List DeliveryRow :=
  let ids := (fm.map (·.id)).dedup
  ds.filter (fun d => decide (d.match_id ∈ ids))

/-- The whole filter engine: produces the pair
(filtered matches, filtered deliveries). -/
def applyFilters (s : List Int) (t v : List String)
    (ms : List MatchRow) (ds : List DeliveryRow) :
    List MatchRow × List DeliveryRow :=
  let fm := filterMatches s t v ms
  (fm, filterDeliveries fm ds)

/-- The pipeline with the season filter omitted entirely (comparison object
for the identity-filter claim). -/
def applyFiltersNoSeason (t v : List String)
    (ms : List MatchRow) (ds : List DeliveryRow) :
    List MatchRow × List DeliveryRow :=
  let fm := venueStep v (teamStep t ms)
  (fm, filterDeliveries fm ds)

/-- The pipeline with the team filter omitted entirely. -/
def applyFiltersNoTeam (s : List Int) (v : List String)
    (ms : List MatchRow) (ds : List DeliveryRow) :
    List MatchRow × List DeliveryRow :=
  let fm := venueStep v (seasonStep s ms)
  (fm, filterDeliveries fm ds)

/-- The pipeline with the venue filter omitted entirely. -/
def applyFiltersNoVenue (s : List Int) (t : List String)
    (ms : List MatchRow) (ds : List DeliveryRow) :
    List MatchRow × List DeliveryRow :=
  let fm := teamStep t (seasonStep s ms)
  (fm, filterDeliveries fm ds)

/-- Claim C1: for every matches table, deliveries table and selection sets,
filtering with an empty set on any one axis (seasons, teams or venues)
produces exactly the same output tables as omitting that filter entirely:
the empty selection is the identity filter on that axis. -/
theorem claim_C1_empty_selection_is_identity
    (s : List Int) (t v : List String)
    (ms : List MatchRow) (ds : List DeliveryRow) :
    applyFilters [] t v ms ds = applyFiltersNoSeason t v ms ds ∧
    applyFilters s [] v ms ds = applyFiltersNoTeam s v ms ds ∧
    applyFilters s t [] ms ds = applyFiltersNoVenue s t ms ds :=
  ⟨rfl, rfl, rfl⟩

/-- Claim C2: with a non-empty selected team set `S`, the team filter keeps a
match row with `team1 = A`, `team2 = B` exactly when `A ∈ S` or `B ∈ S`
(inclusive-OR over the two competing-team columns). -/
theorem claim_C2_team_filter_inclusive_or
    (ms : List MatchRow) (S : List String) (r : MatchRow) (a b : String)
    (hS : S ≠ []) (h1 : r.team1 = some a) (h2 : r.team2 = some b) :
    r ∈ teamStep S ms ↔ (r ∈ ms ∧ (a ∈ S ∨ b ∈ S)) := by
  have hSe : S.isEmpty = false := by
    cases S with
    | nil => exact absurd rfl hS
    | cons x xs => rfl
  simp [teamStep, hSe, List.mem_filter, optIsin, h1, h2]

def w2row : MatchRow :=
  { id := 1, season := 2019, team1 := some "Chennai Super Kings",
    team2 := some "Mumbai Indians", venue := some "Wankhede Stadium",
    winner := some "Mumbai Indians" }

/-- Witness for C2 at a concrete row and selection. -/
theorem claim_C2_team_filter_inclusive_or_witness :
    w2row ∈ teamStep ["Chennai Super Kings"] [w2row] :=
  (claim_C2_team_filter_inclusive_or [w2row] ["Chennai Super Kings"] w2row
      "Chennai Super Kings" "Mumbai Indians" (by decide) rfl rfl).mpr
    (by constructor
        · exact List.mem_singleton.mpr rfl
        · exact Or.inl (by decide))

/-- Claim C3: the filtered deliveries table contains exactly those delivery
rows whose `match_id` appears in the `id` column of the filtered matches
table, and consequently the `match_id` values of the filtered deliveries are
a subset of the `id` values of the filtered matches. -/
theorem claim_C3_referential_closure
    (s : List Int) (t v : List String)
    (ms : List MatchRow) (ds : List DeliveryRow) :
    (∀ d, d ∈ (applyFilters s t v ms ds).2 ↔
      (d ∈ ds ∧ d.match_id ∈ (applyFilters s t v ms ds).1.map (·.id))) ∧
    (∀ x ∈ (applyFilters s t v ms ds).2.map (·.match_id),
      x ∈ (applyFilters s t v ms ds).1.map (·.id)) := by
  have hchar : ∀ d, d ∈ (applyFilters s t v ms ds).2 ↔
      (d ∈ ds ∧ d.match_id ∈ (applyFilters s t v ms ds).1.map (·.id)) := by
    intro d
    simp [applyFilters, filterDeliveries, List.mem_filter, List.mem_dedup]
  refine ⟨hchar, ?_⟩
  intro x hx
  rcases List.mem_map.mp hx with ⟨d, hd, hdx⟩
  exact hdx ▸ ((hchar d).mp hd).2

def w3delivery : DeliveryRow :=
  { match_id := 1, inning := 1, over := 0, ball := 1,
    batsman := "MS Dhoni", bowler := "JJ Bumrah",
    batsman_runs := 4, total_runs := 4,
    player_dismissed := none, dismissal_kind := none }

/-- Witness for C3 at concrete tables: the delivery of the single kept match
is kept. -/
theorem claim_C3_referential_closure_witness :
    w3delivery ∈ (applyFilters [] [] [] [w2row] [w3delivery]).2 :=
  ((claim_C3_referential_closure [] [] [] [w2row] [w3delivery]).1
      w3delivery).mpr (by decide)

/-- `app.py` lines 166-168: `calculate_strike_rate(runs, balls)` returns
`runs / balls * 100` when `balls > 0`, else `0`. -/
def calculate_strike_rate (runs balls : ℚ) : ℚ :=
  if balls > 0 then runs / balls * 100 else 0

/-- `app.py` lines 170-173: `calculate_economy(runs, balls)` computes
`overs = balls / 6` and returns `runs / overs` when `overs > 0`, else `0`. -/
def calculate_economy (runs balls : ℚ) : ℚ :=
  let overs := balls / 6
  if overs > 0 then runs / overs else 0

/-- One record appended by the win-percentage loop (`app.py` line 448):
a dict of Team, Win % and Matches. -/
structure TeamStat where
  team : String
  winPct : ℚ
  matchesPlayed : Nat
deriving DecidableEq, Repr

/-- `app.py` lines 439-448: for each team of the selectable team list, count
the filtered matches it appears in (either side) and its wins; append a
record with `win_pct = wins / total * 100` only when `total > 0`. -/
def team_stats (ts : List String) (fm : List MatchRow) : List TeamStat :=
  ts.filterMap (fun team =>
    let tm := fm.filter (fun r =>
      decide (r.team1 = some team) || decide (r.team2 = some team))
    let wins := (fm.filter (fun r => decide (r.winner = some team))).length
    let total := tm.length
    if total > 0 then
      some { team := team, winPct := (wins : ℚ) / (total : ℚ) * 100,
             matchesPlayed := total }
    else none)

/-- Claim C4 counterexample: with selectable teams `["A"]` and an empty
filtered match table, team `A` has zero matches played, yet the
win-percentage computation omits `A` instead of yielding an entry with 0. -/
theorem claim_C4_counterexample :
    ¬ ∃ e ∈ team_stats ["A"] ([] : List MatchRow), e.team = "A" := by
  decide

/-- Claim C4 as amended: `calculate_strike_rate runs 0 = 0` and
`calculate_economy runs 0 = 0`, and the win-percentage computation handles a
team with zero matches played by omitting it from the result (no division is
performed), not by reporting 0. -/
theorem claim_C4_amended_zero_denominators
    (runs : ℚ) (ts : List String) (fm : List MatchRow) (t : String)
    (h : (fm.filter (fun r =>
      decide (r.team1 = some t) || decide (r.team2 = some t))).length = 0) :
    calculate_strike_rate runs 0 = 0 ∧
    calculate_economy runs 0 = 0 ∧
    t ∉ (team_stats ts fm).map (·.team) := by
  refine ⟨by simp [calculate_strike_rate], by simp [calculate_economy], ?_⟩
  intro hmem
  rcases List.mem_map.mp hmem with ⟨e, he, het⟩
  rcases List.mem_filterMap.mp he with ⟨team, _, hsome⟩
  by_cases htot : 0 < (fm.filter (fun r =>
      decide (r.team1 = some team) || decide (r.team2 = some team))).length
  · rw [if_pos htot] at hsome
    have hteam : team = t := by
      have : e.team = team := by
        cases hsome
        rfl
      rw [← het, this]
    rw [hteam] at htot
    omega
  · rw [if_neg htot] at hsome
    exact Option.noConfusion hsome

/-- Witness for C4 (amended) at concrete inputs. -/
theorem claim_C4_amended_zero_denominators_witness :
    calculate_strike_rate 7 0 = 0 ∧
    calculate_economy 7 0 = 0 ∧
    "A" ∉ (team_stats ["A"] ([] : List MatchRow)).map (·.team) :=
  claim_C4_amended_zero_denominators 7 ["A"] [] "A" rfl

/-- `app.py` lines 805-808: the phase label of a delivery as a function of
the `over` column: Powerplay (1-6) if x < 6 else (Middle (7-15) if
x < 15 else Death (16-20)). -/
def phaseLabel (over : Nat) : String :=
  if over < 6 then "Powerplay (1-6)"
  else if over < 15 then "Middle (7-15)"
  else "Death (16-20)"

/-- Claim C6: phase classification uses strict less-than boundaries on the
zero-indexed over counter: `over < 6` is Powerplay, `6 ≤ over < 15` is
Middle, `15 ≤ over` is Death; in particular over 5 is Powerplay, over 6 and
over 14 are Middle, and over 15 is Death. -/
theorem claim_C6_phase_boundaries (over : Nat) :
    (over < 6 → phaseLabel over = "Powerplay (1-6)") ∧
    (6 ≤ over → over < 15 → phaseLabel over = "Middle (7-15)") ∧
    (15 ≤ over → phaseLabel over = "Death (16-20)") ∧
    phaseLabel 5 = "Powerplay (1-6)" ∧
    phaseLabel 6 = "Middle (7-15)" ∧
    phaseLabel 14 = "Middle (7-15)" ∧
    phaseLabel 15 = "Death (16-20)" := by
  refine ⟨?_, ?_, ?_, rfl, rfl, rfl, rfl⟩
  · intro h
    simp [phaseLabel, h]
  · intro h6 h15
    simp [phaseLabel, h15, Nat.not_lt.mpr h6]
  · intro h
    simp [phaseLabel, Nat.not_lt.mpr (by omega : 6 ≤ over),
      Nat.not_lt.mpr h]

/-- Witness for C6 at the boundary over 5. -/
theorem claim_C6_phase_boundaries_witness :
    phaseLabel 5 = "Powerplay (1-6)" :=
  (claim_C6_phase_boundaries 5).1 (by decide)

/-- `app.py` lines 162-164: `get_valid_dismissals()` — the dismissal kinds
that count toward a bowler. -/
def get_valid_dismissals : List String :=
  ["caught", "bowled", "lbw", "caught and bowled", "stumped", "hit wicket"]

/-- Whether the `dismissal_kind` of a delivery is bowler-credited:
`dismissal_kind.isin(valid_dismissals)` (line 502-504); a missing kind
(`NaN`, no wicket) is never in the list. -/
def dismissalCredited (k : Option String) : Bool :=
  match k with
  | some s => decide (s ∈ get_valid_dismissals)
  | none => false

/-- `app.py` lines 502-504: the deliveries whose dismissal kind is
bowler-credited. -/
def wicket_takers (ds : List DeliveryRow) : List DeliveryRow :=
  ds.filter (fun r => dismissalCredited r.dismissal_kind)

/-- `app.py` line 505: `wicket_takers[bowler].value_counts()` — the tally
of one bowler is the number of bowler-credited deliveries bowled by them. -/
def wicketTally (b : String) (ds : List DeliveryRow) : Nat :=
  ((wicket_takers ds).filter (fun r => decide (r.bowler = b))).length

lemma filter_and_split {α : Type} (p q : α → Bool) (l : List α) :
    l.filter (fun a => p a && q a) = (l.filter p).filter q := by
  induction l with
  | nil => rfl
  | cons a l ih =>
    by_cases hp : p a <;> by_cases hq : q a <;>
      simp [List.filter_cons, hp, hq, ih]

/-- Claim C7: the wicket tally of a bowler counts exactly the deliveries bowled by
them whose dismissal kind is in the bowler-credited set; run out, retired
hurt, obstructing the field and no-dismissal are not credited, and appending
a non-credited delivery leaves every tally unchanged. -/
theorem claim_C7_wicket_tally_credited_only
    (ds : List DeliveryRow) (b : String) (d : DeliveryRow)
    (h : dismissalCredited d.dismissal_kind = false) :
    wicketTally b ds = (ds.filter (fun r =>
      dismissalCredited r.dismissal_kind && decide (r.bowler = b))).length ∧
    (dismissalCredited (some "run out") = false ∧
     dismissalCredited (some "retired hurt") = false ∧
     dismissalCredited (some "obstructing the field") = false ∧
     dismissalCredited none = false) ∧
    wicketTally b (ds ++ [d]) = wicketTally b ds := by
  refine ⟨?_, by decide, ?_⟩
  · rw [wicketTally, wicket_takers, filter_and_split]
  · simp [wicketTally, wicket_takers, List.filter_append,
      List.filter_cons, h]

def w7caught : DeliveryRow :=
  { match_id := 1, inning := 1, over := 3, ball := 2,
    batsman := "V Kohli", bowler := "R Ashwin",
    batsman_runs := 0, total_runs := 0,
    player_dismissed := some "V Kohli", dismissal_kind := some "caught" }

def w7runout : DeliveryRow :=
  { match_id := 1, inning := 1, over := 4, ball := 1,
    batsman := "AB de Villiers", bowler := "R Ashwin",
    batsman_runs := 1, total_runs := 1,
    player_dismissed := some "AB de Villiers",
    dismissal_kind := some "run out" }

/-- Witness for C7: a run-out delivery does not increment the tally of its
bowler. -/
theorem claim_C7_wicket_tally_credited_only_witness :
    wicketTally "R Ashwin" ([w7caught] ++ [w7runout]) =
      wicketTally "R Ashwin" [w7caught] :=
  (claim_C7_wicket_tally_credited_only [w7caught] "R Ashwin" w7runout
    (by decide)).2.2

/-- Insertion of an element into a list sorted descending by a rational
key (model of the ordering produced by `sort_values(..., ascending=False)`). -/
def insertDescBy {α : Type} (key : α → ℚ) (x : α) : List α → List α
  | [] => [x]
  | y :: ys => if key y < key x then x :: y :: ys else y :: insertDescBy key x ys

/-- Sort a result table descending by a rational key. -/
def sortDescBy {α : Type} (key : α → ℚ) (l : List α) : List α :=
  l.foldr (insertDescBy key) []

/-- `app.py` line 450: `pd.DataFrame(team_stats).sort_values(Win %,
ascending=False).head(10)`.  `pd.DataFrame` applied to an empty list of
records yields a DataFrame with no columns at all, so
`sort_values(Win %)` raises `KeyError`; the fallible sort step is
therefore modelled with `Except`. -/
def winPercentageAgg (ts : List String) (fm : List MatchRow) :
    Except String (List TeamStat) :=
  let stats := team_stats ts fm
  if stats.isEmpty then Except.error "KeyError: Win %"
  else Except.ok ((sortDescBy (·.winPct) stats).take 10)

/-- One record appended by the consistent-teams loop (`app.py` lines
964-969). -/
structure ConsStat where
  team : String
  winPct : ℚ
  matchesPlayed : Nat
  wins : Nat
deriving DecidableEq, Repr

/-- `app.py` lines 955-969: for each team of the selectable team list,
append a record only when the filtered matches-played count of the team is at
least 10. -/
def consistency_stats (ts : List String) (fm : List MatchRow) :
    List ConsStat :=
  ts.filterMap (fun team =>
    let tm := fm.filter (fun r =>
      decide (r.team1 = some team) || decide (r.team2 = some team))
    if tm.length ≥ 10 then
      let wins := (fm.filter (fun r => decide (r.winner = some team))).length
      some { team := team, winPct := (wins : ℚ) / (tm.length : ℚ) * 100,
             matchesPlayed := tm.length, wins := wins }
    else none)

/-- `app.py` line 971: `pd.DataFrame(consistency_stats)
.sort_values(Win %, ascending=False).head(10)`, with the same
empty-DataFrame `KeyError` behaviour as the win-percentage table. -/
def consistentTeamsAgg (ts : List String) (fm : List MatchRow) :
    Except String (List ConsStat) :=
  let stats := consistency_stats ts fm
  if stats.isEmpty then Except.error "KeyError: Win %"
  else Except.ok ((sortDescBy (·.winPct) stats).take 10)

/-- Claim C5 evaluated on the code: on an empty filtered match table both
the win-percentage and the consistent-teams aggregations raise (model:
return `Except.error`) instead of returning an empty result, because
sorting an empty, column-less DataFrame by the Win % column is a `KeyError`. -/
theorem claim_C5_empty_input_raises (ts : List String) :
    winPercentageAgg ts [] = Except.error "KeyError: Win %" ∧
    consistentTeamsAgg ts [] = Except.error "KeyError: Win %" := by
  have h1 : team_stats ts [] = [] :=
    List.filterMap_eq_nil_iff.mpr (fun a _ => rfl)
  have h2 : consistency_stats ts [] = [] :=
    List.filterMap_eq_nil_iff.mpr (fun a _ => rfl)
  constructor
  · simp [winPercentageAgg, h1]
  · simp [consistentTeamsAgg, h2]

lemma sum_map_ite_eq_zero {β : Type} [DecidableEq β] (a : β) (ks : List β)
    (h : a ∉ ks) :
    (ks.map (fun k => if a = k then (1 : Nat) else 0)).sum = 0 := by
  induction ks with
  | nil => rfl
  | cons k ks ih =>
    have hak : a ≠ k := fun hak => h (hak ▸ List.mem_cons_self k ks)
    simp [hak, ih (fun hm => h (List.mem_cons_of_mem k hm))]

lemma sum_map_ite_eq_one {β : Type} [DecidableEq β] (a : β) (ks : List β)
    (hn : ks.Nodup) (h : a ∈ ks) :
    (ks.map (fun k => if a = k then (1 : Nat) else 0)).sum = 1 := by
  induction ks with
  | nil => cases h
  | cons k ks ih =>
    rcases List.mem_cons.mp h with hk | hk
    · subst hk
      simp [sum_map_ite_eq_zero a ks (List.nodup_cons.mp hn).1]
    · have hak : a ≠ k := fun he => (List.nodup_cons.mp hn).1 (he ▸ hk)
      simp [hak, ih (List.nodup_cons.mp hn).2 hk]

lemma sum_map_add_nat {α : Type} (l : List α) (f g : α → Nat) :
    (l.map (fun x => f x + g x)).sum = (l.map f).sum + (l.map g).sum := by
  induction l with
  | nil => rfl
  | cons a l ih =>
    simp only [List.map_cons, List.sum_cons, ih]
    omega

/-- Partitioning a list by the value of `f` over a complete, duplicate-free
list of keys recovers its length. -/
lemma sum_filter_lengths {α β : Type} [DecidableEq β] (f : α → β) :
    ∀ (l : List α) (ks : List β), ks.Nodup → (∀ x ∈ l, f x ∈ ks) →
      (ks.map (fun k =>
        (l.filter (fun x => decide (f x = k))).length)).sum = l.length := by
  intro l
  induction l with
  | nil =>
    intro ks _ _
    simp
  | cons a l ih =>
    intro ks hn hc
    have hpt : ∀ k ∈ ks,
        ((a :: l).filter (fun x => decide (f x = k))).length =
          (if f a = k then 1 else 0) +
            (l.filter (fun x => decide (f x = k))).length := by
      intro k _
      by_cases h : f a = k <;> simp [List.filter_cons, h, Nat.add_comm]
    rw [List.map_congr_left hpt, sum_map_add_nat,
      sum_map_ite_eq_one (f a) ks hn (hc a (List.mem_cons_self a l)),
      ih ks hn (fun x hx => hc x (List.mem_cons_of_mem a hx))]
    simp [Nat.add_comm]

/-- `app.py` lines 864-869: the (winner, loser) pair recorded for one match
row: skip when `winner` is missing; otherwise the loser is `team2` when
`team1` equals the winner, else `team1`; skip when the loser is missing. -/
def pivotPair (r : MatchRow) : Option (String × String) :=
  match r.winner with
  | none => none
  | some w =>
    let loser := if r.team1 = some w then r.team2 else r.team1
    match loser with
    | none => none
    | some l => some (w, l)

/-- `app.py` lines 863-869: the list of (winner, loser) pairs of the
filtered match table. -/
def pivot_data (fm : List MatchRow) : List (String × String) :=
  fm.filterMap pivotPair

/-- One cell of `pd.crosstab(pivot_df[Winner], pivot_df[Loser])`
(line 873): the number of pairs equal to (w, l). -/
def crosstabCell (pairs : List (String × String)) (w l : String) : Nat :=
  (pairs.filter (fun p => decide (p.1 = w) && decide (p.2 = l))).length

/-- The sum of all cells of the crosstab: rows are the distinct winners,
columns the distinct losers. -/
def crosstabTotal (pairs : List (String × String)) : Nat :=
  (((pairs.map (·.1)).dedup).map (fun w =>
    (((pairs.map (·.2)).dedup).map (fun l => crosstabCell pairs w l)).sum)).sum

lemma crosstabTotal_eq_length (pairs : List (String × String)) :
    crosstabTotal pairs = pairs.length := by
  unfold crosstabTotal
  have hinner : ∀ w ∈ (pairs.map (·.1)).dedup,
      (((pairs.map (·.2)).dedup).map (fun l => crosstabCell pairs w l)).sum =
        (pairs.filter (fun p => decide (p.1 = w))).length := by
    intro w _
    have hcell : ∀ l ∈ (pairs.map (·.2)).dedup, crosstabCell pairs w l =
        ((pairs.filter (fun p => decide (p.1 = w))).filter
          (fun p => decide (p.2 = l))).length := by
      intro l _
      rw [crosstabCell, filter_and_split]
    rw [List.map_congr_left hcell]
    exact sum_filter_lengths (fun p : String × String => p.2)
      (pairs.filter (fun p => decide (p.1 = w))) ((pairs.map (·.2)).dedup)
      (List.nodup_dedup _)
      (fun x hx => List.mem_dedup.mpr
        (List.mem_map.mpr ⟨x, (List.mem_filter.mp hx).1, rfl⟩))
  rw [List.map_congr_left hinner]
  exact sum_filter_lengths (fun p : String × String => p.1)
    pairs ((pairs.map (·.1)).dedup)
    (List.nodup_dedup _)
    (fun x hx => List.mem_dedup.mpr (List.mem_map.mpr ⟨x, hx, rfl⟩))

/-- The data-model invariant of a match row (spec section 3): both team
columns present, distinct teams, and `winner` either missing or one of the
two competing teams. -/
def matchInvariants (r : MatchRow) : Prop :=
  r.team1.isSome = true ∧ r.team2.isSome = true ∧ r.team1 ≠ r.team2 ∧
  (r.winner = none ∨ r.winner = r.team1 ∨ r.winner = r.team2)

instance (r : MatchRow) : Decidable (matchInvariants r) := by
  unfold matchInvariants
  infer_instance

lemma pivotPair_isSome_of_inv (r : MatchRow) (h : matchInvariants r) :
    (pivotPair r).isSome = r.winner.isSome := by
  rcases h with ⟨h1, h2, hne, hw⟩
  rcases Option.isSome_iff_exists.mp h1 with ⟨a, ha⟩
  rcases Option.isSome_iff_exists.mp h2 with ⟨b, hb⟩
  rcases hw with hw | hw | hw
  · simp [pivotPair, hw]
  · have hw2 : r.winner = some a := by rw [hw, ha]
    simp [pivotPair, hw2, ha, hb]
  · have hab : a ≠ b := fun he => hne (by rw [ha, hb, he])
    have hw2 : r.winner = some b := by rw [hw, hb]
    simp [pivotPair, hw2, ha, hb, hab]

lemma pivot_data_length (fm : List MatchRow)
    (h : ∀ r ∈ fm, matchInvariants r) :
    (pivot_data fm).length =
      (fm.filter (fun r => r.winner.isSome)).length := by
  induction fm with
  | nil => rfl
  | cons r fm ih =>
    have hr := pivotPair_isSome_of_inv r (h r (List.mem_cons_self r fm))
    have ht := ih (fun x hx => h x (List.mem_cons_of_mem r hx))
    cases hp : pivotPair r with
    | none =>
      have hw : r.winner.isSome = false := by rw [← hr, hp]; rfl
      simp [pivot_data, List.filterMap_cons, hp, List.filter_cons, hw] at ht ⊢
      exact ht
    | some p =>
      have hw : r.winner.isSome = true := by rw [← hr, hp]; rfl
      simp [pivot_data, List.filterMap_cons, hp, List.filter_cons, hw] at ht ⊢
      exact ht

/-- Claim C8: for a filtered match table satisfying the data-model
invariants, each match with a determined winner contributes exactly one
(winner, loser) pair with the loser the other competing team, matches with
no winner contribute nothing, and the sum of all crosstab cells equals the
number of filtered matches with a determined winner. -/
theorem claim_C8_head_to_head_total (fm : List MatchRow)
    (h : ∀ r ∈ fm, matchInvariants r) :
    crosstabTotal (pivot_data fm) =
      (fm.filter (fun r => r.winner.isSome)).length ∧
    (∀ r ∈ fm, ∀ a b, r.team1 = some a → r.team2 = some b →
      ((r.winner = some a → pivotPair r = some (a, b)) ∧
       (r.winner = some b → pivotPair r = some (b, a)) ∧
       (r.winner = none → pivotPair r = none))) := by
  constructor
  · rw [crosstabTotal_eq_length]
    exact pivot_data_length fm h
  · intro r hr a b ha hb
    have hne : r.team1 ≠ r.team2 := (h r hr).2.2.1
    have hab : a ≠ b := fun he => hne (by rw [ha, hb, he])
    refine ⟨?_, ?_, ?_⟩
    · intro hw
      simp [pivotPair, hw, ha, hb]
    · intro hw
      simp [pivotPair, hw, ha, hb, hab]
    · intro hw
      simp [pivotPair, hw]

def w8rows : List MatchRow :=
  [{ id := 1, season := 2018, team1 := some "A", team2 := some "B",
     venue := some "V", winner := some "A" },
   { id := 2, season := 2018, team1 := some "B", team2 := some "C",
     venue := some "V", winner := none },
   { id := 3, season := 2018, team1 := some "C", team2 := some "A",
     venue := some "V", winner := some "A" }]

/-- Witness for C8 at a concrete three-match table (one tie/no-result). -/
theorem claim_C8_head_to_head_total_witness :
    crosstabTotal (pivot_data w8rows) =
      (w8rows.filter (fun r => r.winner.isSome)).length :=
  (claim_C8_head_to_head_total w8rows (by decide)).1

/-- One step of insertion sort over strings in ascending order (model of
Python `sorted` on the distinct team names). -/
def insertAsc (x : String) : List String → List String
  | [] => [x]
  | y :: ys => if x ≤ y then x :: y :: ys else y :: insertAsc x ys

/-- Ascending insertion sort over strings. -/
def sortStringsAsc (l : List String) : List String :=
  l.foldr insertAsc []

/-- `app.py` line 203: `teams = sorted(matches[team1].dropna().unique())`
— the selectable team list is built from the `team1` column only. -/
def teamsList (ms : List MatchRow) : List String :=
  sortStringsAsc ((ms.filterMap (·.team1)).dedup)

lemma mem_insertAsc (a x : String) (l : List String) :
    a ∈ insertAsc x l ↔ a = x ∨ a ∈ l := by
  induction l with
  | nil => simp [insertAsc]
  | cons y ys ih =>
    by_cases h : x ≤ y
    · simp [insertAsc, h]
    · simp [insertAsc, h, ih]
      tauto

lemma insertAsc_perm (x : String) (l : List String) :
    List.Perm (insertAsc x l) (x :: l) := by
  induction l with
  | nil => exact List.Perm.refl _
  | cons y ys ih =>
    by_cases h : x ≤ y
    · simp only [insertAsc, if_pos h]
      exact List.Perm.refl _
    · simp only [insertAsc, if_neg h]
      exact List.Perm.trans (List.Perm.cons y ih) (List.Perm.swap x y ys)

lemma sortStringsAsc_perm (l : List String) :
    List.Perm (sortStringsAsc l) l := by
  induction l with
  | nil => exact List.Perm.refl _
  | cons x xs ih =>
    exact List.Perm.trans (insertAsc_perm x (sortStringsAsc xs))
      (List.Perm.cons x ih)

lemma mem_sortStringsAsc (a : String) (l : List String) :
    a ∈ sortStringsAsc l ↔ a ∈ l :=
  (sortStringsAsc_perm l).mem_iff

/-- Claim C9: the selectable team list contains exactly the distinct
non-null values of the `team1` column (it is duplicate-free), so a team
appearing only in the `team2` column of its matches is absent from it. -/
theorem claim_C9_teams_from_team1_only (ms : List MatchRow) (t : String) :
    (t ∈ teamsList ms ↔ some t ∈ ms.map (·.team1)) ∧
    (teamsList ms).Nodup ∧
    (((∃ r ∈ ms, r.team2 = some t) ∧ some t ∉ ms.map (·.team1)) →
      t ∉ teamsList ms) := by
  have hchar : t ∈ teamsList ms ↔ some t ∈ ms.map (·.team1) := by
    rw [teamsList, mem_sortStringsAsc, List.mem_dedup]
    simp [List.mem_filterMap, List.mem_map, eq_comm]
  refine ⟨hchar, ?_, fun hx hmem => hx.2 (hchar.mp hmem)⟩
  exact ((sortStringsAsc_perm _).nodup_iff).mpr
    (List.nodup_dedup _)

def w9row : MatchRow :=
  { id := 7, season := 2016, team1 := some "A", team2 := some "X",
    venue := some "V", winner := some "X" }

/-- Witness for C9: team `X`, present only in `team2`, is not selectable. -/
theorem claim_C9_teams_from_team1_only_witness :
    "X" ∉ teamsList [w9row] :=
  (claim_C9_teams_from_team1_only [w9row] "X").2.2 ⟨by decide, by decide⟩

/-- The record the consistent-teams loop appends for a team that clears the
threshold. -/
def consRecord (fm : List MatchRow) (t : String) : ConsStat :=
  { team := t,
    winPct := ((fm.filter (fun r => decide (r.winner = some t))).length : ℚ) /
      ((fm.filter (fun r => decide (r.team1 = some t) ||
        decide (r.team2 = some t))).length : ℚ) * 100,
    matchesPlayed := (fm.filter (fun r => decide (r.team1 = some t) ||
      decide (r.team2 = some t))).length,
    wins := (fm.filter (fun r => decide (r.winner = some t))).length }

/-- Claim C10 as amended: the consistent-teams statistics (before the top-10
truncation) contain a team exactly when it is in the selectable team list
and its matches-played count over the filtered match table is at least
10. -/
theorem claim_C10_amended_consistency_threshold
    (ts : List String) (fm : List MatchRow) (t : String) :
    t ∈ (consistency_stats ts fm).map (·.team) ↔
      (t ∈ ts ∧ 10 ≤ (fm.filter (fun r =>
        decide (r.team1 = some t) || decide (r.team2 = some t))).length) := by
  constructor
  · intro h
    rcases List.mem_map.mp h with ⟨e, he, het⟩
    rcases List.mem_filterMap.mp he with ⟨team, hteam, hsome⟩
    by_cases hge : (fm.filter (fun r =>
        decide (r.team1 = some team) ||
          decide (r.team2 = some team))).length ≥ 10
    · simp only [consistency_stats, if_pos hge, Option.some.injEq] at hsome
      have hteq : team = t := by rw [← het, ← hsome]
      rw [hteq] at hteam hge
      exact ⟨hteam, hge⟩
    · simp only [consistency_stats, if_neg hge] at hsome
      exact absurd hsome (by simp)
  · rintro ⟨hts, hge⟩
    exact List.mem_map.mpr ⟨consRecord fm t,
      List.mem_filterMap.mpr ⟨t, hts, if_pos hge⟩, rfl⟩

def c10matches : List MatchRow :=
  (List.range 10).map (fun i =>
    { id := i + 1, season := 2015, team1 := some "A", team2 := some "X",
      venue := some "V", winner := some "A" })

/-- Claim C10 counterexample: team `X` plays all 10 matches of the filtered
table, but appears only in the `team2` column, so it is absent from the
selectable team list and hence from the consistent-teams statistics —
refuting "every team with 10 or more filtered matches appears". -/
theorem claim_C10_counterexample :
    10 ≤ (c10matches.filter (fun r =>
      decide (r.team1 = some "X") || decide (r.team2 = some "X"))).length ∧
    "X" ∉ (consistency_stats (teamsList c10matches) c10matches).map
      (·.team) := by
  constructor
  · decide
  · decide
